import Mathlib

/-!
Verification of the zig conversational research agent.

Shallow embedding of:
  * `src/agent/zig/tools/apollo/translation/search.py` (record normalization),
  * `src/agent/zig/tools/apollo/search.py` and `config.py` (provider call),
  * `src/agent/zig/tools/unipile/config.py` (credential checks),
  * `src/agent/zig/graph.py` (`chat_node`, `tool_node`, the control loop).

Python dict `.get(key, default)` reads are modelled with `Option` fields and
`Option.getD`; machine side effects (log appends, observer emissions, the
remote call) are made explicit as event traces.
-/

namespace Zig

/-! ## Raw provider records (apollo/translation/search.py) -/

/-- One entry of a raw person's `employment_history` list. -/
structure RawEmployment where
  title : Option String
  organization_name : Option String
deriving DecidableEq

/-- A raw person record from the Apollo people-search response.  Every field is
read in the source with `person.get(key, "")` (or plain `get` for
`employment_history`), hence the `Option` types. -/
structure RawPerson where
  first_name : Option String
  last_name : Option String
  linkedin_url : Option String
  email_status : Option String
  email : Option String
  employment_history : Option (List RawEmployment)
  city : Option String
  state : Option String
deriving DecidableEq

/-- The raw people-search response body: `data.get("people", [])`. -/
structure RawResponse where
  people : Option (List RawPerson)
deriving DecidableEq

/-- The fixed-shape normalized record (`PeopleSearchData` pydantic model). -/
structure PeopleSearchData where
  first_name : String
  last_name : String
  linkedin_url : String
  email_status : String
  email : String
  title : String
  organization : String
  location : String
deriving DecidableEq

/-- Normalization of a single raw person record: the body of the `for person`
loop of `extract_people_search_data` (translation/search.py lines 35-71). -/
def extract_person (person : RawPerson) : PeopleSearchData :=
  let first_name := person.first_name.getD ""
  let last_name := person.last_name.getD ""
  let linkedin_url := person.linkedin_url.getD ""
  let email_status := person.email_status.getD ""
  let email0 := person.email.getD ""
  let email := if email0 = "email_not_unlocked@domain.com" then "Unlock" else email0
  let employment_info :=
    match person.employment_history with
    | some (employment :: _) =>
        (employment.title.getD "", employment.organization_name.getD "")
    | _ => ("", "")
  let city := person.city.getD ""
  let state := person.state.getD ""
  let location :=
    if city ≠ "" ∧ state ≠ "" then city ++ ", " ++ state
    else if city ≠ "" then city
    else if state ≠ "" then state
    else ""
  { first_name := first_name
    last_name := last_name
    linkedin_url := linkedin_url
    email_status := email_status
    email := email
    title := employment_info.1
    organization := employment_info.2
    location := location }

/-- `extract_people_search_data` (translation/search.py lines 16-73): map the
per-person normalization over `data.get("people", [])`. -/
def extract_people_search_data (data : RawResponse) : List PeopleSearchData :=
  (data.people.getD []).map extract_person

/-- Canonical embedding of an already-normalized record back into a raw
provider record, used to state idempotence of the projection: each normalized
field is placed where the projection reads it (title and organization as the
sole employment-history entry, the location string in the city slot). -/
def reinject (r : PeopleSearchData) : RawPerson :=
  { first_name := some r.first_name
    last_name := some r.last_name
    linkedin_url := some r.linkedin_url
    email_status := some r.email_status
    email := some r.email
    employment_history := some [{ title := some r.title, organization_name := some r.organization }]
    city := some r.location
    state := some "" }

/-- The normalized email never equals the locked sentinel: the sentinel is
rewritten to `"Unlock"` and every other value is distinct from it. -/
theorem extract_person_email_ne (p : RawPerson) :
    (extract_person p).email ≠ "email_not_unlocked@domain.com" := by
  by_cases h : p.email.getD "" = "email_not_unlocked@domain.com" <;>
    simp [extract_person, h]

/-- Re-normalizing a reinjected record is the identity whenever the email is
not the locked sentinel. -/
theorem reinject_extract (r : PeopleSearchData)
    (h : r.email ≠ "email_not_unlocked@domain.com") :
    extract_person (reinject r) = r := by
  cases r with
  | mk fn ln lu es em ti org lo =>
    simp only [extract_person, reinject, Option.getD_some] at h ⊢
    by_cases hlo : lo = "" <;> simp [h, hlo]

/-- Claim C4: the normalized location is `"<city>, <state>"` when both city
and state are non-empty, just the city when only the city is non-empty, and
`""` when neither is present. -/
theorem location_synthesis (p : RawPerson) :
    (p.city.getD "" ≠ "" → p.state.getD "" ≠ "" →
      (extract_person p).location = p.city.getD "" ++ ", " ++ p.state.getD "")
    ∧ (p.city.getD "" ≠ "" → p.state.getD "" = "" →
      (extract_person p).location = p.city.getD "")
    ∧ (p.city.getD "" = "" → p.state.getD "" = "" →
      (extract_person p).location = "") := by
  refine ⟨fun hc hs => ?_, fun hc hs => ?_, fun hc hs => ?_⟩ <;>
    simp [extract_person, hc, hs]

/-- A raw record with city Austin and state TX. -/
def austinTX : RawPerson :=
  { first_name := some "A", last_name := some "B", linkedin_url := none
    email_status := none, email := none, employment_history := none
    city := some "Austin", state := some "TX" }

/-- A raw record with city Austin and no state. -/
def austinOnly : RawPerson :=
  { austinTX with state := none }

/-- A raw record with neither city nor state. -/
def nowherePerson : RawPerson :=
  { austinTX with city := none, state := none }

/-- Witness for C4 at the three concrete inputs of the claim. -/
theorem location_synthesis_witness :
    (extract_person austinTX).location = "Austin, TX"
    ∧ (extract_person austinOnly).location = "Austin"
    ∧ (extract_person nowherePerson).location = "" :=
  ⟨(location_synthesis austinTX).1 (by decide) (by decide),
   (location_synthesis austinOnly).2.1 (by decide) (by decide),
   (location_synthesis nowherePerson).2.2 (by decide) (by decide)⟩

/-- Claim C5: a raw email equal to the locked sentinel is normalized to the
literal `"Unlock"`; every other raw email value passes through unchanged. -/
theorem email_lock_sentinel (p : RawPerson) :
    (p.email.getD "" = "email_not_unlocked@domain.com" →
      (extract_person p).email = "Unlock")
    ∧ (p.email.getD "" ≠ "email_not_unlocked@domain.com" →
      (extract_person p).email = p.email.getD "") := by
  refine ⟨fun h => ?_, fun h => ?_⟩ <;> simp [extract_person, h]

/-- A raw record carrying the locked-email sentinel. -/
def lockedPerson : RawPerson :=
  { austinTX with email := some "email_not_unlocked@domain.com" }

/-- A raw record carrying an ordinary email. -/
def openPerson : RawPerson :=
  { austinTX with email := some "jane@example.com" }

/-- Witness for C5 at a sentinel and a non-sentinel input. -/
theorem email_lock_sentinel_witness :
    (extract_person lockedPerson).email = "Unlock"
    ∧ (extract_person openPerson).email = "jane@example.com" :=
  ⟨(email_lock_sentinel lockedPerson).1 (by decide),
   (email_lock_sentinel openPerson).2 (by decide)⟩

/-- Claim C9: the normalized-record projection is a pure deterministic
function: equal raw inputs give equal outputs, and re-normalizing an
already-normalized record (embedded back as a raw record by `reinject`)
yields the identical record. -/
theorem idempotent_normalization :
    (∀ d₁ d₂ : RawResponse, d₁ = d₂ →
      extract_people_search_data d₁ = extract_people_search_data d₂)
    ∧ ∀ p : RawPerson, extract_person (reinject (extract_person p)) = extract_person p :=
  ⟨fun _ _ h => congrArg extract_people_search_data h,
   fun p => reinject_extract _ (extract_person_email_ne p)⟩

/-- Witness for C9 at a concrete raw record. -/
theorem idempotent_normalization_witness :
    extract_people_search_data { people := some [austinTX] }
      = extract_people_search_data { people := some [austinTX] }
    ∧ extract_person (reinject (extract_person lockedPerson)) = extract_person lockedPerson :=
  ⟨idempotent_normalization.1 _ _ rfl, idempotent_normalization.2 lockedPerson⟩

/-! ## Provider call (apollo/search.py, apollo/config.py) -/

/-- `ApolloError` (apollo/config.py lines 8-13): carries the HTTP status, the
raw response body, the human-readable message, and the fixed name. -/
structure ApolloError where
  status : Nat
  body : String
  message : Option String
  name : String
deriving DecidableEq

/-- An HTTP response as observed by `people_search`: a status code, the body
text (read on the error path), and the parsed JSON (read on the other path). -/
structure HttpResponse where
  status : Nat
  body : String
  json : RawResponse
deriving DecidableEq

/-- The response handling of `people_search` (apollo/search.py lines 66-75):
raise `ApolloError(status, body, "Failed to fetch people search results")`
when `response.status >= 400`, otherwise return the normalized records
extracted from the response JSON. -/
def people_search (response : HttpResponse) : Except ApolloError (List PeopleSearchData) :=
  if 400 ≤ response.status then
    Except.error
      { status := response.status
        body := response.body
        message := some "Failed to fetch people search results"
        name := "ApolloError" }
  else
    Except.ok (extract_people_search_data response.json)

/-- Whether an HTTP status code is in the 2xx success class. -/
def is2xx (status : Nat) : Bool := 200 ≤ status && status < 300

/-- A 300-status response: non-2xx, yet below the source's 400 threshold. -/
def redirectResponse : HttpResponse :=
  { status := 300, body := "redirect", json := { people := none } }

/-- Counterexample to C6 as stated: status 300 is non-2xx, but `people_search`
does not fail there — it returns the extracted records, because the source
raises only on `status >= 400`. -/
theorem provider_error_counterexample :
    is2xx redirectResponse.status = false
    ∧ people_search redirectResponse = Except.ok [] := by
  constructor <;> rfl

/-- Claim C6 as amended: `people_search` raises an `ApolloError` carrying the
response status, the raw body and a human-readable message if and only if the
status is at least 400; on any status below 400 it returns the records
extracted from the response JSON. -/
theorem provider_error_amended (response : HttpResponse) :
    (400 ≤ response.status →
      people_search response = Except.error
        { status := response.status
          body := response.body
          message := some "Failed to fetch people search results"
          name := "ApolloError" })
    ∧ (response.status < 400 →
      people_search response = Except.ok (extract_people_search_data response.json)) := by
  refine ⟨fun h => ?_, fun h => ?_⟩ <;>
    simp [people_search, h, Nat.not_le_of_lt]

/-- A 401-status response. -/
def unauthorizedResponse : HttpResponse :=
  { status := 401, body := "unauthorized", json := { people := none } }

/-- A 200-status response with one person. -/
def okResponse : HttpResponse :=
  { status := 200, body := "", json := { people := some [austinTX] } }

/-- Witness for the amended C6 at a 401 and a 200 response. -/
theorem provider_error_amended_witness :
    people_search unauthorizedResponse = Except.error
      { status := 401
        body := "unauthorized"
        message := some "Failed to fetch people search results"
        name := "ApolloError" }
    ∧ people_search okResponse
        = Except.ok (extract_people_search_data okResponse.json) :=
  ⟨(provider_error_amended unauthorizedResponse).1 (by decide),
   (provider_error_amended okResponse).2 (by decide)⟩

/-! ## Credential configuration (apollo/config.py, unipile/config.py) -/

/-- A process environment: a partial map from variable names to values. -/
def Env : Type := String → Option String

/-- `apollo_config["apiKey"]` (apollo/config.py line 4):
`os.environ.get("APOLLO_API_KEY")`, with no presence check. -/
def apollo_apiKey (env : Env) : Option String := env "APOLLO_API_KEY"

/-- How a capability invocation begins: either a synchronously raised
configuration error, or the dispatch of a network request (carrying the
credential it would send). -/
inductive CapabilityStart where
  | configError (message : String)
  | networkRequest (credential : Option String)
deriving DecidableEq

/-- Whether a capability start is a raised configuration error. -/
def CapabilityStart.isConfigError : CapabilityStart → Bool
  | .configError _ => true
  | .networkRequest _ => false

/-- The pre-network phase of Apollo `people_search` (apollo/search.py lines
51-65): the api key is read from the config dict without any check and the
POST request is issued unconditionally. -/
def people_search_start (env : Env) : CapabilityStart :=
  CapabilityStart.networkRequest (apollo_apiKey env)

/-- `UNIPILE_DSN` (unipile/config.py line 12): note the source reads the
`UNIPILE_DNS` environment variable, defaulting to `""`. -/
def UNIPILE_DSN_val (env : Env) : String := (env "UNIPILE_DNS").getD ""

/-- `UNIPILE_API_KEY` (unipile/config.py line 13). -/
def UNIPILE_API_KEY_val (env : Env) : String := (env "UNIPILE_API_KEY").getD ""

/-- `UNIPILE_ACCOUNT_ID` (unipile/config.py line 14). -/
def UNIPILE_ACCOUNT_ID_val (env : Env) : String := (env "UNIPILE_ACCOUNT_ID").getD ""

/-- `get_base_url` (unipile/config.py lines 17-32): raises when the DSN is
unset, otherwise normalizes it to an http(s) URL. -/
def get_base_url (env : Env) : Except String String :=
  if UNIPILE_DSN_val env = "" then
    Except.error "UNIPILE_DNS environment variable is not set"
  else if (UNIPILE_DSN_val env).startsWith "http" then Except.ok (UNIPILE_DSN_val env)
  else Except.ok ("https://" ++ UNIPILE_DSN_val env)

/-- `get_headers` (unipile/config.py lines 35-59): raises when the API key is
unset, otherwise returns the standard headers including the key. -/
def get_headers (env : Env) : Except String (List (String × String)) :=
  if UNIPILE_API_KEY_val env = "" then
    Except.error "UNIPILE_API_KEY environment variable is not set"
  else
    Except.ok [("accept", "application/json"), ("content-type", "application/json"),
      ("X-API-KEY", UNIPILE_API_KEY_val env)]

/-- `ensure_account_id` (unipile/config.py lines 140-171): use the argument if
truthy, else the environment value; raise when neither is provided. -/
def ensure_account_id (env : Env) (account_id : Option String) : Except String String :=
  let id_to_use :=
    match account_id with
    | some a => if a = "" then UNIPILE_ACCOUNT_ID_val env else a
    | none => UNIPILE_ACCOUNT_ID_val env
  if id_to_use = "" then Except.error "Account ID is required but not provided"
  else Except.ok id_to_use

/-- The pre-network phase of a Unipile capability (unipile/users.py lines
133-140, `get_account_owner_profile`): `ensure_account_id`, `get_base_url`
and `get_headers` all run — and may raise — before `make_request` performs
any network call. -/
def unipile_capability_start (env : Env) (account_id : Option String) : CapabilityStart :=
  match ensure_account_id env account_id with
  | Except.error m => CapabilityStart.configError m
  | Except.ok _ =>
    match get_base_url env with
    | Except.error m => CapabilityStart.configError m
    | Except.ok _ =>
      match get_headers env with
      | Except.error m => CapabilityStart.configError m
      | Except.ok _ => CapabilityStart.networkRequest (some (UNIPILE_API_KEY_val env))

/-- An environment with no variables set at all. -/
def emptyEnv : Env := fun _ => none

/-- Counterexample to C8 as stated: with no `APOLLO_API_KEY` in the
environment, the Apollo `people_search` capability raises no configuration
error at first use — it proceeds straight to the network request, carrying a
null credential. -/
theorem config_error_counterexample :
    (people_search_start emptyEnv).isConfigError = false
    ∧ people_search_start emptyEnv = CapabilityStart.networkRequest none := by
  constructor <;> rfl

/-- Claim C8 as amended: Unipile capabilities raise a fatal configuration
error synchronously at first use — before any network request — whenever the
DSN, the API key, or the account id is missing; Apollo capabilities perform no
credential check and always proceed to the network request. -/
theorem config_error_amended (env : Env) (account_id : Option String)
    (h : UNIPILE_DSN_val env = "" ∨ UNIPILE_API_KEY_val env = ""
      ∨ (account_id = none ∧ UNIPILE_ACCOUNT_ID_val env = "")) :
    (unipile_capability_start env account_id).isConfigError = true
    ∧ (people_search_start env).isConfigError = false := by
  refine ⟨?_, rfl⟩
  unfold unipile_capability_start
  rcases h with h | h | ⟨ha, h⟩
  · rcases hacc : ensure_account_id env account_id with m | a
    · rfl
    · unfold get_base_url
      simp [h, CapabilityStart.isConfigError]
  · rcases hacc : ensure_account_id env account_id with m | a
    · rfl
    · rcases hbase : get_base_url env with m | b
      · rfl
      · unfold get_headers
        simp [h, CapabilityStart.isConfigError]
  · subst ha
    unfold ensure_account_id
    simp [h, CapabilityStart.isConfigError]

/-- Witness for the amended C8: the empty environment. -/
theorem config_error_amended_witness :
    (unipile_capability_start emptyEnv none).isConfigError = true
    ∧ (people_search_start emptyEnv).isConfigError = false :=
  config_error_amended emptyEnv none (Or.inl rfl)

/-! ## The agent graph (graph.py) -/

/-- A tool call attached to an assistant message.  `name` is read in the
source with `.get("name")`, hence the `Option`. -/
structure ToolCall where
  name : Option String
  id : String
deriving DecidableEq

/-- A conversation message: user turn, assistant (`AIMessage`, possibly
carrying tool calls), tool result (`ToolMessage`), or system prompt. -/
inductive Message where
  | user (content : String)
  | ai (content : String) (tool_calls : List ToolCall)
  | toolResult (content : String) (tool_call_id : String)
  | system (content : String)
deriving DecidableEq

/-- A caller-supplied copilotkit host action, identified by its `name` entry
(read with `action.get("name")` in the source). -/
structure HostAction where
  name : Option String
deriving DecidableEq

/-- A progress-log entry (`ProgressLog`, graph.py lines 18-23).  The opaque
uuid and the wall-clock timestamp are modelled by a fresh natural number
supplied at creation. -/
structure LogEntry where
  id : Nat
  message : String
  timestamp : Nat
  type : String
deriving DecidableEq

/-- Build a log entry from a fresh counter value, a message and a category. -/
def mkLog (freshId : Nat) (message : String) (log_type : String) : LogEntry :=
  { id := freshId, message := message, timestamp := freshId, type := log_type }

/-- `AgentState` (graph.py lines 25-28) together with the copilotkit fields
the nodes read: the `logs` key may be absent (`state.get("logs", ...)`). -/
structure AgentState where
  messages : List Message
  people : List PeopleSearchData
  logs : Option (List LogEntry)
  current_status : String
  actions : List HostAction
deriving DecidableEq

/-- The events a `tool_node` run performs, in order: appending a log entry,
emitting a full state snapshot through `copilotkit_emit_state`, and the
remote search call. -/
inductive ToolEvent where
  | logAppend (entry : LogEntry)
  | emitState (snapshot : AgentState)
  | callSearch
deriving DecidableEq

/-- The state fragment a `tool_node` run yields to the graph (absent keys are
left untouched by the merge; the `messages` channel appends). -/
structure StateUpdate where
  people : Option (List PeopleSearchData) := none
  logs : Option (List LogEntry) := none
  current_status : Option String := none
  messages : List Message := []
deriving DecidableEq

/-- The complete observable behaviour of one `tool_node` run: the ordered
event trace, the yielded update or the propagated error, and the working log
list (`current_logs`) at exit. -/
structure ToolRun where
  events : List ToolEvent
  result : Except ApolloError StateUpdate
  logsAfter : List LogEntry

/-- `state["messages"][-1].tool_calls[0]` (graph.py line 39): the pending tool
call, when the last message is an assistant message with at least one call. -/
def lastToolCall (state : AgentState) : Option ToolCall :=
  match state.messages.getLast? with
  | some (Message.ai _ (tc :: _)) => some tc
  | _ => none

/-- How the graph merges a yielded update into the state (langgraph channel
semantics: the `messages` channel appends, the other keys overwrite), and how
a propagated error leaves the persisted state untouched. -/
def applyRun (state : AgentState) (run : ToolRun) : AgentState :=
  match run.result with
  | Except.error _ => state
  | Except.ok u =>
    { state with
      messages := state.messages ++ u.messages
      people := u.people.getD state.people
      logs := match u.logs with | some l => some l | none => state.logs
      current_status := u.current_status.getD state.current_status }

/-- `current_logs = state.get("logs", [])` (graph.py line 43). -/
def current_logs (state : AgentState) : List LogEntry := state.logs.getD []

/-- `start_log` (graph.py line 46). -/
def start_log (freshId : Nat) : LogEntry :=
  mkLog freshId "🔍 Starting people search..." "progress"

/-- `exec_log` (graph.py line 62). -/
def exec_log (freshId : Nat) : LogEntry :=
  mkLog (freshId + 1) "⚡ Executing Apollo people search API..." "progress"

/-- `success_log` (graph.py line 80), for `n` found records. -/
def success_log (freshId : Nat) (n : Nat) : LogEntry :=
  mkLog (freshId + 2) ("✅ Found " ++ toString n ++ " people successfully!") "success"

/-- `process_log` (graph.py line 89). -/
def process_log (freshId : Nat) : LogEntry :=
  mkLog (freshId + 3) "🔄 Processing and formatting results..." "progress"

/-- `current_logs` after the start-log append (graph.py lines 47-52). -/
def logsAfterStart (state : AgentState) (freshId : Nat) : List LogEntry :=
  current_logs state ++ [start_log freshId]

/-- `current_logs` after the exec-log append (graph.py lines 63-68). -/
def logsAfterExec (state : AgentState) (freshId : Nat) : List LogEntry :=
  logsAfterStart state freshId ++ [exec_log freshId]

/-- `current_logs` after the success-log append (graph.py lines 81-86). -/
def logsAfterSuccess (state : AgentState) (freshId : Nat) (n : Nat) : List LogEntry :=
  logsAfterExec state freshId ++ [success_log freshId n]

/-- `current_logs` after the process-log append (graph.py lines 90-95). -/
def logsAfterProcess (state : AgentState) (freshId : Nat) (n : Nat) : List LogEntry :=
  logsAfterSuccess state freshId n ++ [process_log freshId]

/-- `searching_state` (graph.py lines 55-58): the first emitted snapshot. -/
def searching_state (state : AgentState) (freshId : Nat) : AgentState :=
  { state with
    logs := some (logsAfterStart state freshId)
    current_status := "Searching for people..."
    messages := state.messages ++ [Message.ai "*Searching for people...* 🕵️" []] }

/-- `exec_state` (graph.py lines 71-73): the second emitted snapshot (built
from a fresh copy of `state`, so without the transient searching message). -/
def exec_state (state : AgentState) (freshId : Nat) : AgentState :=
  { state with
    logs := some (logsAfterExec state freshId)
    current_status := "Executing search..." }

/-- `final_state` (graph.py lines 98-102): the final emitted snapshot. -/
def final_state (state : AgentState) (freshId : Nat)
    (result : List PeopleSearchData) : AgentState :=
  { state with
    people := result
    logs := some (logsAfterProcess state freshId result.length)
    current_status := "Search completed - " ++ toString result.length ++ " people found"
    messages := state.messages ++
      [Message.ai ("Found " ++ toString result.length ++ " people. ✅") []] }

/-- `tool_node` (graph.py lines 35-114).  The outcome of the remote
`people_search.ainvoke` call is passed in as `search` (records on success, an
`ApolloError` on failure); `genericMessages` stands for the messages produced
by the prebuilt `ToolNode` delegate on the non-people-search branch (that
delegate updates only the `messages` channel).  Returns `none` when no
pending tool call exists (the source would fault on line 39). -/
def tool_node (state : AgentState) (freshId : Nat)
    (search : Except ApolloError (List PeopleSearchData))
    (genericMessages : List Message) : Option ToolRun :=
  match lastToolCall state with
  | none => none
  | some tool_call =>
    if tool_call.name = some "people_search" then
      match search with
      | Except.error e =>
        some
          { events := [ToolEvent.logAppend (start_log freshId),
              ToolEvent.emitState (searching_state state freshId),
              ToolEvent.logAppend (exec_log freshId),
              ToolEvent.emitState (exec_state state freshId), ToolEvent.callSearch]
            result := Except.error e
            logsAfter := logsAfterExec state freshId }
      | Except.ok result =>
        let n := result.length
        some
          { events := [ToolEvent.logAppend (start_log freshId),
              ToolEvent.emitState (searching_state state freshId),
              ToolEvent.logAppend (exec_log freshId),
              ToolEvent.emitState (exec_state state freshId), ToolEvent.callSearch,
              ToolEvent.logAppend (success_log freshId n),
              ToolEvent.logAppend (process_log freshId),
              ToolEvent.emitState (final_state state freshId result)]
            result := Except.ok
              { people := some result
                logs := some (logsAfterProcess state freshId n)
                current_status := some ("Ready - " ++ toString n ++ " people loaded")
                messages := [Message.toolResult ("Found " ++ toString n ++ " people.") tool_call.id] }
            logsAfter := logsAfterProcess state freshId n }
    else
      some
        { events := []
          result := Except.ok { messages := genericMessages }
          logsAfter := current_logs state }

/-- The control-loop transition targets of a `Command` from `chat_node`:
`goto="tool_node"` (the EXECUTING state) or `goto=END` (termination). -/
inductive Goto where
  | toToolNode
  | toEnd
deriving DecidableEq

/-- The `Command` returned by `chat_node`: a transition target plus the
messages update (appended to the history by the `messages` channel). -/
structure ChatCommand where
  goto : Goto
  updateMessages : List Message
deriving DecidableEq

/-- The events of one `chat_node` run, in order: state emissions and the
language-model query. -/
inductive ChatEvent where
  | emitState (snapshot : AgentState)
  | queryModel
deriving DecidableEq

/-- The observable behaviour of one `chat_node` run. -/
structure ChatRun where
  events : List ChatEvent
  command : ChatCommand
deriving DecidableEq

/-- The baseline snapshot emitted when no logs exist (graph.py lines
148-153): the state with an empty log and the ready status string. -/
def readyState (state : AgentState) : AgentState :=
  { state with logs := some [], current_status := "Ready to help you find prospects" }

/-- `chat_node` (graph.py lines 116-180).  The language model's reply is
passed in as `response`.  The node first emits the baseline ready snapshot
when `state.get("logs")` is falsy (absent or empty), then queries the model;
it goes to `tool_node` exactly when the response is an assistant message with
tool calls whose first call's name matches no copilotkit action name, and to
END otherwise; either way the update appends the response message. -/
def chat_node (state : AgentState) (response : Message) : ChatRun :=
  let baseline :=
    if (state.logs.getD []).isEmpty then [ChatEvent.emitState (readyState state)] else []
  let command :=
    match response with
    | Message.ai _ (tc :: _) =>
      if state.actions.any (fun action => action.name == tc.name) then
        { goto := Goto.toEnd, updateMessages := [response] }
      else
        { goto := Goto.toToolNode, updateMessages := [response] }
    | _ => { goto := Goto.toEnd, updateMessages := [response] }
  { events := baseline ++ [ChatEvent.queryModel], command := command }

/-- Claim C1: for an assistant response carrying at most one tool call (the
model is bound with parallel tool calls disabled), `chat_node` goes to
`tool_node` if and only if the response contains a tool call whose name
differs from every copilotkit host-action name; otherwise it goes to END, and
in both cases the update appends the response message to the history. -/
theorem deciding_transition (state : AgentState) (content : String)
    (tcs : List ToolCall) (hlen : tcs.length ≤ 1) :
    ((chat_node state (Message.ai content tcs)).command.goto = Goto.toToolNode ↔
      ∃ tc ∈ tcs, ∀ action ∈ state.actions, action.name ≠ tc.name)
    ∧ (chat_node state (Message.ai content tcs)).command.updateMessages
        = [Message.ai content tcs] := by
  cases tcs with
  | nil => exact ⟨by simp [chat_node], rfl⟩
  | cons tc rest =>
    cases rest with
    | cons tc2 rest2 =>
      exfalso
      simp only [List.length_cons] at hlen
      omega
    | nil =>
      refine ⟨?_, ?_⟩
      · by_cases h : state.actions.any (fun action => action.name == tc.name)
        · have hgoto :
              (chat_node state (Message.ai content [tc])).command.goto = Goto.toEnd := by
            simp [chat_node, h]
          rw [hgoto]
          simp only [List.any_eq_true, beq_iff_eq] at h
          obtain ⟨action, haction, hname⟩ := h
          refine iff_of_false (by simp) ?_
          rintro ⟨tc', htc', hall⟩
          rw [List.mem_singleton] at htc'
          subst htc'
          exact hall action haction hname
        · have hgoto :
              (chat_node state (Message.ai content [tc])).command.goto = Goto.toToolNode := by
            simp [chat_node, h]
          rw [hgoto]
          refine iff_of_true rfl ⟨tc, by simp, fun action haction heq => ?_⟩
          simp only [List.any_eq_true, beq_iff_eq] at h
          push_neg at h
          exact h action haction heq
      · by_cases h : state.actions.any (fun action => action.name == tc.name) <;>
          simp [chat_node, h]

/-- A host action named sayHello. -/
def sayHelloAction : HostAction := { name := some "sayHello" }

/-- A pending people-search tool call. -/
def searchCall : ToolCall := { name := some "people_search", id := "call-1" }

/-- A tool call whose name matches the host action. -/
def hostCall : ToolCall := { name := some "sayHello", id := "call-2" }

/-- A state whose copilotkit action set is `[sayHelloAction]`. -/
def hostedState : AgentState :=
  { messages := [Message.user "hi"], people := [], logs := none
    current_status := "", actions := [sayHelloAction] }

/-- Witness for C1: a non-host tool call goes to `tool_node`, a host-matching
tool call goes to END, and both updates carry the response message. -/
theorem deciding_transition_witness :
    (chat_node hostedState (Message.ai "" [searchCall])).command.goto = Goto.toToolNode
    ∧ (chat_node hostedState (Message.ai "" [hostCall])).command.goto = Goto.toEnd
    ∧ (chat_node hostedState (Message.ai "" [searchCall])).command.updateMessages
        = [Message.ai "" [searchCall]] := by
  have h1 := deciding_transition hostedState "" [searchCall] (by decide)
  have h2 := deciding_transition hostedState "" [hostCall] (by decide)
  refine ⟨h1.1.mpr ⟨searchCall, by simp, by decide⟩, ?_, h1.2⟩
  rcases hg : (chat_node hostedState (Message.ai "" [hostCall])).command.goto with _ | _
  · exfalso
    obtain ⟨tc, htc, hall⟩ := h2.1.mp hg
    rw [List.mem_singleton] at htc
    subst htc
    exact hall sayHelloAction (by simp [hostedState]) (by decide)
  · rfl

/-- Claim C7: when the progress log is empty (or absent) at entry, `chat_node`
emits exactly one baseline snapshot — carrying an empty log and the ready
status string — before the language-model query; when the log is non-empty no
baseline emission occurs. -/
theorem ready_baseline (state : AgentState) (response : Message) :
    ((state.logs.getD []).isEmpty = true →
      (chat_node state response).events
        = [ChatEvent.emitState (readyState state), ChatEvent.queryModel]
      ∧ (readyState state).logs = some []
      ∧ (readyState state).current_status = "Ready to help you find prospects")
    ∧ ((state.logs.getD []).isEmpty = false →
      (chat_node state response).events = [ChatEvent.queryModel]) := by
  refine ⟨fun h => ⟨by simp [chat_node, h], rfl, rfl⟩, fun h => by simp [chat_node, h]⟩

/-- A state with an absent progress log. -/
def freshAgentState : AgentState :=
  { messages := [], people := [], logs := none, current_status := "", actions := [] }

/-- A state with a non-empty progress log. -/
def busyAgentState : AgentState :=
  { freshAgentState with logs := some [mkLog 0 "m" "info"] }

/-- Witness for C7 at an empty-log state and a non-empty-log state. -/
theorem ready_baseline_witness :
    (chat_node freshAgentState (Message.user "hi")).events
      = [ChatEvent.emitState (readyState freshAgentState), ChatEvent.queryModel]
    ∧ (chat_node busyAgentState (Message.user "hi")).events = [ChatEvent.queryModel] :=
  ⟨((ready_baseline freshAgentState (Message.user "hi")).1 (by decide)).1,
   (ready_baseline busyAgentState (Message.user "hi")).2 (by decide)⟩

/-- The `ToolRun` produced by the failing people-search branch of `tool_node`
(graph.py lines 41-77 followed by the raised error). -/
def errRun (state : AgentState) (freshId : Nat) (e : ApolloError) : ToolRun :=
  { events := [ToolEvent.logAppend (start_log freshId),
      ToolEvent.emitState (searching_state state freshId),
      ToolEvent.logAppend (exec_log freshId),
      ToolEvent.emitState (exec_state state freshId), ToolEvent.callSearch]
    result := Except.error e
    logsAfter := logsAfterExec state freshId }

/-- The `ToolRun` produced by the successful people-search branch of
`tool_node` (graph.py lines 41-111). -/
def okRun (state : AgentState) (freshId : Nat) (result : List PeopleSearchData)
    (callId : String) : ToolRun :=
  { events := [ToolEvent.logAppend (start_log freshId),
      ToolEvent.emitState (searching_state state freshId),
      ToolEvent.logAppend (exec_log freshId),
      ToolEvent.emitState (exec_state state freshId), ToolEvent.callSearch,
      ToolEvent.logAppend (success_log freshId result.length),
      ToolEvent.logAppend (process_log freshId),
      ToolEvent.emitState (final_state state freshId result)]
    result := Except.ok
      { people := some result
        logs := some (logsAfterProcess state freshId result.length)
        current_status := some ("Ready - " ++ toString result.length ++ " people loaded")
        messages := [Message.toolResult ("Found " ++ toString result.length ++ " people.") callId] }
    logsAfter := logsAfterProcess state freshId result.length }

/-- Claim C2: a successful `tool_node` run on the people-search path extends
the progress log by exactly the four entries (starting, executing, success,
processing), and no `tool_node` run ever shortens the existing log — the log
before the run is always an initial segment of the log after. -/
theorem monotonic_log :
    (∀ (state : AgentState) (freshId : Nat) (tc : ToolCall)
        (people : List PeopleSearchData) (gm : List Message),
      lastToolCall state = some tc → tc.name = some "people_search" →
      tool_node state freshId (Except.ok people) gm = some (okRun state freshId people tc.id)
      ∧ (okRun state freshId people tc.id).logsAfter = current_logs state ++
          [start_log freshId, exec_log freshId,
           success_log freshId people.length, process_log freshId]
      ∧ (okRun state freshId people tc.id).logsAfter.length
          = (current_logs state).length + 4)
    ∧ ∀ (state : AgentState) (freshId : Nat)
        (search : Except ApolloError (List PeopleSearchData))
        (gm : List Message) (run : ToolRun),
      tool_node state freshId search gm = some run →
      ∃ tail, run.logsAfter = current_logs state ++ tail := by
  constructor
  · intro state freshId tc people gm hlast hname
    refine ⟨by simp [tool_node, okRun, hlast, hname], ?_, ?_⟩
    · simp [okRun, logsAfterProcess, logsAfterSuccess, logsAfterExec, logsAfterStart,
        List.append_assoc]
    · simp [okRun, logsAfterProcess, logsAfterSuccess, logsAfterExec, logsAfterStart,
        List.length_append]
  · intro state freshId search gm run h
    unfold tool_node at h
    split at h
    · exact absurd h (by simp)
    · split at h
      · split at h
        · injection h with h2
          subst h2
          exact ⟨[start_log freshId, exec_log freshId],
            by simp [logsAfterExec, logsAfterStart, List.append_assoc]⟩
        · rename_i result
          injection h with h2
          subst h2
          exact ⟨[start_log freshId, exec_log freshId,
              success_log freshId result.length, process_log freshId],
            by simp [logsAfterProcess, logsAfterSuccess, logsAfterExec, logsAfterStart,
              List.append_assoc]⟩
      · injection h with h2
        subst h2
        exact ⟨[], by simp⟩

/-- A state whose last message holds a pending people-search tool call. -/
def pendingSearchState : AgentState :=
  { messages := [Message.ai "" [searchCall]], people := [], logs := none
    current_status := "", actions := [] }

/-- The working-log length of a `tool_node` run, when the run exists. -/
def runLogLen (o : Option ToolRun) : Option Nat :=
  o.map fun run => run.logsAfter.length

/-- Witness for C2: a successful run from an empty log ends with 4 entries. -/
theorem monotonic_log_witness :
    runLogLen (tool_node pendingSearchState 0 (Except.ok []) []) = some 4 := by
  obtain ⟨hrun, _, hlen⟩ :=
    monotonic_log.1 pendingSearchState 0 searchCall [] [] (by decide) (by decide)
  unfold runLogLen
  rw [hrun, Option.map_some', hlen]
  simp [current_logs, pendingSearchState]

/-- Claim C3: when the search capability fails, the error propagates out of
`tool_node` un-annotated: the persisted state (and in particular `people` and
`messages`) is unchanged, no success-category log entry is appended, and no
closing assistant or tool-result message is produced. -/
theorem search_failure_behavior (state : AgentState) (freshId : Nat) (tc : ToolCall)
    (e : ApolloError) (gm : List Message)
    (hlast : lastToolCall state = some tc) (hname : tc.name = some "people_search") :
    tool_node state freshId (Except.error e) gm = some (errRun state freshId e)
    ∧ (errRun state freshId e).result = Except.error e
    ∧ applyRun state (errRun state freshId e) = state
    ∧ (applyRun state (errRun state freshId e)).people = state.people
    ∧ (applyRun state (errRun state freshId e)).messages = state.messages
    ∧ (errRun state freshId e).logsAfter
        = current_logs state ++ [start_log freshId, exec_log freshId]
    ∧ ∀ l ∈ (errRun state freshId e).logsAfter,
        l ∈ current_logs state ∨ l.type = "progress" := by
  refine ⟨by simp [tool_node, errRun, hlast, hname], rfl, rfl, rfl, rfl,
    by simp [errRun, logsAfterExec, logsAfterStart, List.append_assoc], ?_⟩
  intro l hl
  simp only [errRun, logsAfterExec, logsAfterStart, List.append_assoc, List.mem_append,
    List.mem_singleton] at hl
  rcases hl with hl | hl | hl
  · exact Or.inl hl
  · exact Or.inr (by simp [hl, start_log, mkLog])
  · exact Or.inr (by simp [hl, exec_log, mkLog])

/-- A 401 provider error. -/
def authError : ApolloError :=
  { status := 401, body := "unauthorized"
    message := some "Failed to fetch people search results", name := "ApolloError" }

/-- Whether a `tool_node` run exists and propagated an error. -/
def runIsError (o : Option ToolRun) : Bool :=
  match o with
  | some run => match run.result with | Except.error _ => true | Except.ok _ => false
  | none => false

/-- Witness for C3: the 401 failure propagates and leaves a 2-entry log. -/
theorem search_failure_behavior_witness :
    runIsError (tool_node pendingSearchState 0 (Except.error authError) []) = true
    ∧ runLogLen (tool_node pendingSearchState 0 (Except.error authError) []) = some 2 := by
  obtain ⟨hrun, herr, _, _, _, hlog, _⟩ :=
    search_failure_behavior pendingSearchState 0 searchCall authError []
      (by decide) (by decide)
  constructor
  · rw [hrun]
    rfl
  · unfold runLogLen
    rw [hrun, Option.map_some', hlog]
    simp [current_logs, pendingSearchState]

/-- Claim C10: on a failing people-search run the two pre-call progress
entries have already been appended to the working log and two snapshots have
already been emitted before the error propagates; the trace ends at the
remote call, so no error-category entry and no further emission follow. -/
theorem failure_partial_log (state : AgentState) (freshId : Nat) (tc : ToolCall)
    (e : ApolloError) (gm : List Message)
    (hlast : lastToolCall state = some tc) (hname : tc.name = some "people_search") :
    tool_node state freshId (Except.error e) gm = some (errRun state freshId e)
    ∧ (errRun state freshId e).events
        = [ToolEvent.logAppend (start_log freshId),
           ToolEvent.emitState (searching_state state freshId),
           ToolEvent.logAppend (exec_log freshId),
           ToolEvent.emitState (exec_state state freshId), ToolEvent.callSearch]
    ∧ (errRun state freshId e).result = Except.error e
    ∧ (errRun state freshId e).logsAfter
        = current_logs state ++ [start_log freshId, exec_log freshId]
    ∧ (searching_state state freshId).logs
        = some (current_logs state ++ [start_log freshId])
    ∧ (exec_state state freshId).logs
        = some (current_logs state ++ [start_log freshId, exec_log freshId])
    ∧ (start_log freshId).type = "progress"
    ∧ (exec_log freshId).type = "progress" := by
  refine ⟨by simp [tool_node, errRun, hlast, hname], rfl, rfl,
    by simp [errRun, logsAfterExec, logsAfterStart, List.append_assoc],
    by simp [searching_state, logsAfterStart],
    by simp [exec_state, logsAfterExec, logsAfterStart, List.append_assoc], rfl, rfl⟩

/-- Witness for C10 at a concrete failing run. -/
theorem failure_partial_log_witness :
    tool_node pendingSearchState 0 (Except.error authError) []
      = some (errRun pendingSearchState 0 authError)
    ∧ (errRun pendingSearchState 0 authError).result = Except.error authError :=
  ⟨(failure_partial_log pendingSearchState 0 searchCall authError []
      (by decide) (by decide)).1,
   (failure_partial_log pendingSearchState 0 searchCall authError []
      (by decide) (by decide)).2.2.1⟩

end Zig
